import Mathlib

/-!
# Verification of the toll-data ETL pipeline

A shallow embedding of `src/ETL_toll_data.py`, an Airflow DAG of seven
tasks chained linearly:

  download >> unzip >> extract_csv >> extract_tsv >> extract_txt
           >> consolidate >> transform

Files on disk are modelled as lists of lines, a line being its list of
characters.  `pd.read_csv(..., header=None)` splits each line on the
separator; `to_csv(..., index=False, header=False)` joins each row of
fields with commas.  Missing cells produced by `pd.concat(..., axis=1)`
on index-misaligned frames are written out as empty fields, which we
model by the empty field `[]`.  The fixed-width task is the shell pipe
`cut -c 59-62,63-67 payment-data.txt | tr ' ' ','`.
-/

/-- A line of a text file, as its list of characters. -/
abbrev Line : Type := List Char

/-- A file on disk, as its list of lines. -/
abbrev TextFile : Type := List Line

/-- A parsed table: a list of rows, each row a list of fields. -/
abbrev Table : Type := List (List Line)

namespace ETL

/-- Model of `pd.read_csv(path, header=None)`: each line is split on commas. -/
def readCsv (f : TextFile) : Table := f.map (List.splitOn ',')

/-- Model of `pd.read_csv(path, sep='\t', header=None)`: each line is split on tabs. -/
def readTsv (f : TextFile) : Table := f.map (List.splitOn '\t')

/-- Model of `DataFrame.to_csv(path, index=False, header=False)`: each row of
fields is joined with commas, with no header line and no index column. -/
def writeCsv (t : Table) : TextFile := t.map (List.intercalate [','])

/-- Positional column projection of one row, `df[[i₀, i₁, ...]]`. -/
def project (idxs : List Nat) (r : List Line) : List Line :=
  idxs.map (fun i => r.getD i [])

/-- Step `extracting_csv` (lines 27-30): read `vehicle-data.csv`, keep columns
0,1,2,3, write `csv_data.csv`. -/
def extracting_csv (f : TextFile) : TextFile :=
  writeCsv ((readCsv f).map (project [0, 1, 2, 3]))

/-- Step `extracting_tsv` (lines 32-35): read `tollplaza-data.tsv`, keep columns
4,5,6, write `tsv_data.csv`. -/
def extracting_tsv (f : TextFile) : TextFile :=
  writeCsv ((readTsv f).map (project [4, 5, 6]))

/-- Character selection of `cut -c`: keep exactly the characters whose 1-based
position lies in one of the given closed ranges, in line order, each once. -/
def cutSelect (ranges : List (Nat × Nat)) (l : Line) : Line :=
  ((List.range l.length).filter
      (fun i => ranges.any (fun p => decide (p.1 ≤ i + 1) && decide (i + 1 ≤ p.2)))).map
    (fun i => l.getD i ' ')

/-- Translation `tr ' ' ','`: replace every space by a comma. -/
def trSpaceComma (l : Line) : Line := l.map (fun c => if c = ' ' then ',' else c)

/-- Step `extract_txt` (lines 75-80): `cut -c 59-62,63-67 payment-data.txt | tr ' ' ','`
applied line by line, writing `fixed_width_data.csv`. -/
def extract_txt (f : TextFile) : TextFile :=
  f.map (fun l => trSpaceComma (cutSelect [(59, 62), (63, 67)] l))

/-- Number of columns of a parsed table (width of its first row; a file read
by `pd.read_csv` is rectangular). -/
def colWidth (t : Table) : Nat := (t.headD []).length

/-- Row `i` of a frame under `pd.concat(..., axis=1)` index alignment: the
actual row when the index is present, otherwise one `NaN` per column,
which `to_csv` renders as empty fields. -/
def rowOrPad (t : Table) (i : Nat) : List Line :=
  if i < t.length then t.getD i [] else List.replicate (colWidth t) []

/-- Model of `pd.concat([csv_data, tsv_data, txt_data], axis=1)`: outer join
on the row index, so the result has `max` of the row counts, each row being
the side-by-side concatenation of the (possibly padded) rows. -/
def concatTables (t1 t2 t3 : Table) : Table :=
  (List.range (max t1.length (max t2.length t3.length))).map
    (fun i => rowOrPad t1 i ++ rowOrPad t2 i ++ rowOrPad t3 i)

/-- Step `consolidating` (lines 37-42): read `csv_data.csv`, `tsv_data.csv`,
`fixed_width_data.csv`, concatenate column-wise, write `extracted_data.csv`. -/
def consolidating (f1 f2 f3 : TextFile) : TextFile :=
  writeCsv (concatTables (readCsv f1) (readCsv f2) (readCsv f3))

/-- Python `str.upper` on one character, over the ASCII letters (the data
processed by the pipeline is ASCII). -/
def upperChar (c : Char) : Char :=
  if 97 ≤ c.toNat ∧ c.toNat ≤ 122 then Char.ofNat (c.toNat - 32) else c

/-- Python `str.upper` on one field. -/
def upperField (l : Line) : Line := l.map upperChar

/-- Action of `extracted_data[3] = extracted_data[3].str.upper()` on one row. -/
def transformRow (r : List Line) : List Line :=
  r.set 3 (upperField (r.getD 3 []))

/-- Step `transforming` (lines 44-47): read `extracted_data.csv`, uppercase
column 3, write `transformed_data.csv`. -/
def transforming (f : TextFile) : TextFile :=
  writeCsv ((readCsv f).map transformRow)

/-! ## Filesystem model

The step functions read and write files at fixed paths under
`~/airflow/dags/toll_project/`.  We model the directory as a partial map
from file name to contents, and each step as an `Except`-valued state
transformer.  The pandas-based steps fault on an absent input file
(`FileNotFoundError`) and on a present file with no data rows
(`pd.read_csv` skips blank lines and raises `EmptyDataError` when nothing
remains); no step catches anything.  The fixed-width step is a bash
pipeline `cut ... | tr ... > out` whose exit status is `tr`'s, so it
succeeds even when `payment-data.txt` is absent, writing an empty
output file. -/

/-- The working directory: file name to contents, absent when missing. -/
abbrev FS : Type := String → Option TextFile

/-- Writing (creating or overwriting) one file. -/
def fsWrite (fs : FS) (name : String) (f : TextFile) : FS :=
  fun m => if m = name then some f else fs m

/-- Path of the raw comma-separated input, `vehicle-data.csv`. -/
def vehicleData : String := "vehicle-data.csv"

/-- Path of the raw tab-separated input, `tollplaza-data.tsv`. -/
def tollplazaData : String := "tollplaza-data.tsv"

/-- Path of the raw fixed-width input, `payment-data.txt`. -/
def paymentData : String := "payment-data.txt"

/-- Path of the CSV extractor output, `csv_data.csv`. -/
def csvData : String := "csv_data.csv"

/-- Path of the TSV extractor output, `tsv_data.csv`. -/
def tsvData : String := "tsv_data.csv"

/-- Path of the fixed-width extractor output, `fixed_width_data.csv`. -/
def fixedWidthData : String := "fixed_width_data.csv"

/-- Path of the consolidation output, `extracted_data.csv`. -/
def extractedData : String := "extracted_data.csv"

/-- Path of the final output, `transformed_data.csv`. -/
def transformedData : String := "transformed_data.csv"

/-- Blank-line removal: `pd.read_csv` by default skips lines with no data. -/
def nonblank (f : TextFile) : TextFile := f.filter (fun l => !l.isEmpty)

/-- Fallible model of `pd.read_csv(path, header=None)` on a present file:
blank lines are skipped, and if no data row remains the call raises
`EmptyDataError`. -/
def readCsvE (f : TextFile) : Except Unit Table :=
  if nonblank f = [] then Except.error () else Except.ok (readCsv (nonblank f))

/-- Fallible model of `pd.read_csv(path, sep='\t', header=None)` on a
present file, with the same blank-line and empty-file behaviour. -/
def readTsvE (f : TextFile) : Except Unit Table :=
  if nonblank f = [] then Except.error () else Except.ok (readTsv (nonblank f))

/-- Step `extracting_csv` as a fallible action on the directory: faults on
an absent `vehicle-data.csv` and on one with no data rows. -/
def extracting_csvE (fs : FS) : Except Unit FS :=
  match fs vehicleData with
  | none => Except.error ()
  | some f =>
    match readCsvE f with
    | Except.error _ => Except.error ()
    | Except.ok t => Except.ok (fsWrite fs csvData (writeCsv (t.map (project [0, 1, 2, 3]))))

/-- Step `extracting_tsv` as a fallible action on the directory: faults on
an absent `tollplaza-data.tsv` and on one with no data rows. -/
def extracting_tsvE (fs : FS) : Except Unit FS :=
  match fs tollplazaData with
  | none => Except.error ()
  | some f =>
    match readTsvE f with
    | Except.error _ => Except.error ()
    | Except.ok t => Except.ok (fsWrite fs tsvData (writeCsv (t.map (project [4, 5, 6]))))

/-- Step `extract_txt` as an action on the directory.  The task runs
`cut -c 59-62,63-67 payment-data.txt | tr ' ' ',' > fixed_width_data.csv`
under bash: the pipeline's exit status is that of `tr`, which succeeds
even when `cut` cannot open its input, so the task never faults and on a
missing input it writes an empty output file. -/
def extract_txtE (fs : FS) : Except Unit FS :=
  match fs paymentData with
  | none => Except.ok (fsWrite fs fixedWidthData [])
  | some f => Except.ok (fsWrite fs fixedWidthData (extract_txt f))

/-- Step `consolidating` as a fallible action on the directory: faults when
any of its three inputs is absent or holds no data rows. -/
def consolidatingE (fs : FS) : Except Unit FS :=
  match fs csvData, fs tsvData, fs fixedWidthData with
  | some f1, some f2, some f3 =>
    match readCsvE f1, readCsvE f2, readCsvE f3 with
    | Except.ok t1, Except.ok t2, Except.ok t3 =>
        Except.ok (fsWrite fs extractedData (writeCsv (concatTables t1 t2 t3)))
    | _, _, _ => Except.error ()
  | _, _, _ => Except.error ()

/-- Step `transforming` as a fallible action on the directory: faults on an
absent `extracted_data.csv` and on one with no data rows. -/
def transformingE (fs : FS) : Except Unit FS :=
  match fs extractedData with
  | none => Except.error ()
  | some f =>
    match readCsvE f with
    | Except.error _ => Except.error ()
    | Except.ok t => Except.ok (fsWrite fs transformedData (writeCsv (t.map transformRow)))

/-! ## The DAG -/

/-- The seven Airflow tasks declared in the file. -/
inductive Task : Type where
  | download : Task
  | unzip : Task
  | extract_csv : Task
  | extract_tsv : Task
  | extract_txt : Task
  | consolidate : Task
  | transform : Task
deriving DecidableEq, Repr

/-- Line 94: `download >> unzip >> extract_csv >> extract_tsv >> extract_txt
>> consolidate >> transform`, as the ordered chain of tasks. -/
def pipelineChain : List Task :=
  [Task.download, Task.unzip, Task.extract_csv, Task.extract_tsv,
   Task.extract_txt, Task.consolidate, Task.transform]

/-- The dependency edges declared by the `>>` chain: consecutive pairs. -/
def dagEdges : List (Task × Task) := pipelineChain.zip pipelineChain.tail

/-- An execution assigns a start and a finish instant to every task; it is
valid when every task finishes no earlier than it starts and, for every
declared edge, the downstream task starts only after the upstream task has
finished (Airflow's default `all_success` trigger rule). -/
def validExec (s f : Task → Nat) : Prop :=
  (∀ t ∈ pipelineChain, s t ≤ f t) ∧ ∀ e ∈ dagEdges, f e.1 ≤ s e.2

/-! ## Concrete sample data, used to instantiate the theorems below -/

/-- Sample `csv_data.csv`: one row `A,B,C,D`. -/
def wCsvFile : TextFile := ["A,B,C,D".toList]

/-- Sample `tsv_data.csv`: one row `E,F,G`. -/
def wTsvFile : TextFile := ["E,F,G".toList]

/-- Sample `fixed_width_data.csv`: one row `H,I`. -/
def wFixFile : TextFile := ["H,I".toList]

/-- Sample raw `vehicle-data.csv`: one row of five columns. -/
def wVehicleFile : TextFile := ["a,b,c,d,e".toList]

/-- Sample raw `tollplaza-data.tsv`: one row of seven columns. -/
def wTollplazaFile : TextFile := ["u\tv\tw\tx\ty\tz\tq".toList]

/-- Sample `extracted_data.csv`: one row whose column 3 is `abc`. -/
def wExtractedFile : TextFile := ["A,B,C,abc,E".toList]

/-- Sample one-line file used to populate the directory model. -/
def wAny : TextFile := [['a']]

/-- A directory in which every file is present. -/
def fsAll : FS := fun _ => some wAny

/-- A line whose characters 59-67 contain no space: 58 filler characters
followed by `ABCDEFGHI`. -/
def c5Line : Line := List.replicate 58 'x' ++ "ABCDEFGHI".toList

/-- Start instants of a sample execution: task `k` of the chain runs in
the slot `[2k, 2k+1]`. -/
def wStart : Task → Nat
  | Task.download => 0
  | Task.unzip => 2
  | Task.extract_csv => 4
  | Task.extract_tsv => 6
  | Task.extract_txt => 8
  | Task.consolidate => 10
  | Task.transform => 12

/-- Finish instants of the sample execution. -/
def wFinish : Task → Nat
  | Task.download => 1
  | Task.unzip => 3
  | Task.extract_csv => 5
  | Task.extract_tsv => 7
  | Task.extract_txt => 9
  | Task.consolidate => 11
  | Task.transform => 13

/-! ## Helper lemmas -/

theorem getD_map_of_lt {α β : Type} (g : α → β) (l : List α) (i : Nat) (d : β) (e : α)
    (h : i < l.length) : (l.map g).getD i d = g (l.getD i e) := by
  simp [List.getElem?_eq_getElem h]

theorem getD_range_map {β : Type} (g : Nat → β) (n i : Nat) (d : β) (h : i < n) :
    ((List.range n).map g).getD i d = g i := by
  have h2 : i < (List.range n).length := by simpa using h
  rw [getD_map_of_lt g _ i d 0 h2]
  simp [List.getElem?_range h]

theorem getD_set_of_ne {α : Type} (l : List α) (i j : Nat) (v d : α) (h : i ≠ j) :
    (l.set i v).getD j d = l.getD j d := by
  simp [List.getElem?_set_ne h]

theorem getD_set_of_lt {α : Type} (l : List α) (i : Nat) (v d : α) (h : i < l.length) :
    (l.set i v).getD i d = v := by
  simp [List.getElem?_set_self h]

theorem getD_of_le {α : Type} (l : List α) (i : Nat) (d : α) (h : l.length ≤ i) :
    l.getD i d = d := by
  simp [List.getElem?_eq_none h]

theorem getD_mem {α : Type} (l : List α) (i : Nat) (d : α) (h : i < l.length) :
    l.getD i d ∈ l := by
  rw [List.getD_eq_getElem?_getD, List.getElem?_eq_getElem h]
  exact List.getElem_mem h

theorem concatTables_row (t1 t2 t3 : Table) (i : Nat)
    (h : i < max t1.length (max t2.length t3.length)) :
    (concatTables t1 t2 t3).getD i [] = rowOrPad t1 i ++ rowOrPad t2 i ++ rowOrPad t3 i := by
  unfold concatTables
  exact getD_range_map _ _ _ _ h

theorem length_concatTables (t1 t2 t3 : Table) :
    (concatTables t1 t2 t3).length = max t1.length (max t2.length t3.length) := by
  simp [concatTables]

theorem length_readCsv (f : TextFile) : (readCsv f).length = f.length := by
  simp [readCsv]

theorem length_writeCsv (t : Table) : (writeCsv t).length = t.length := by
  simp [writeCsv]

theorem rowOrPad_of_lt (t : Table) (i : Nat) (h : i < t.length) :
    rowOrPad t i = t.getD i [] := by
  unfold rowOrPad
  rw [if_pos h]

theorem readCsv_getD (f : TextFile) (i : Nat) (h : i < f.length) :
    (readCsv f).getD i [] = (f.getD i []).splitOn ',' := by
  unfold readCsv
  exact getD_map_of_lt _ f i [] [] h

/-! ## Claims -/

/-- Claim C3: for every natural number `N` and every three extractor-output files
that each contain exactly `N` rows, the consolidation step produces an
output table with exactly `N` rows. -/
theorem consolidating_preserves_rowcount (f1 f2 f3 : TextFile) (n : Nat)
    (h1 : f1.length = n) (h2 : f2.length = n) (h3 : f3.length = n) :
    (consolidating f1 f2 f3).length = n := by
  simp [consolidating, length_writeCsv, length_concatTables, length_readCsv, h1, h2, h3]

/-- Witness for C3 at three concrete one-row files. -/
theorem consolidating_preserves_rowcount_witness :
    (consolidating wCsvFile wTsvFile wFixFile).length = 1 :=
  consolidating_preserves_rowcount wCsvFile wTsvFile wFixFile 1 rfl rfl rfl

/-- Claim C1: for equal row counts, row `i` of the consolidated file is the 9-field
row made of the CSV extract's four fields, then the TSV extract's three
fields, then the fixed-width extract's two fields, in that order. -/
theorem consolidating_rowwise (f1 f2 f3 : TextFile) (n i : Nat)
    (h1 : f1.length = n) (h2 : f2.length = n) (h3 : f3.length = n) (hi : i < n)
    (a b c d e g k p q : Line)
    (hc : (f1.getD i []).splitOn ',' = [a, b, c, d])
    (ht : (f2.getD i []).splitOn ',' = [e, g, k])
    (hf : (f3.getD i []).splitOn ',' = [p, q]) :
    (consolidating f1 f2 f3).getD i [] =
      List.intercalate [','] [a, b, c, d, e, g, k, p, q] := by
  have l1 : (readCsv f1).length = n := by rw [length_readCsv, h1]
  have l2 : (readCsv f2).length = n := by rw [length_readCsv, h2]
  have l3 : (readCsv f3).length = n := by rw [length_readCsv, h3]
  have hmax : i < max (readCsv f1).length (max (readCsv f2).length (readCsv f3).length) := by
    rw [l1, l2, l3]; simpa using hi
  unfold consolidating writeCsv
  rw [getD_map_of_lt _ _ i [] [] (by rw [length_concatTables]; exact hmax)]
  rw [concatTables_row _ _ _ i hmax]
  rw [rowOrPad_of_lt _ i (by rw [l1]; exact hi), rowOrPad_of_lt _ i (by rw [l2]; exact hi),
    rowOrPad_of_lt _ i (by rw [l3]; exact hi)]
  rw [readCsv_getD f1 i (by rw [h1]; exact hi), readCsv_getD f2 i (by rw [h2]; exact hi),
    readCsv_getD f3 i (by rw [h3]; exact hi)]
  rw [hc, ht, hf]
  rfl

/-- Witness for C1 at the sample rows of the spec. -/
theorem consolidating_rowwise_witness :
    (consolidating wCsvFile wTsvFile wFixFile).getD 0 [] =
      List.intercalate [','] [['A'], ['B'], ['C'], ['D'], ['E'], ['F'], ['G'], ['H'], ['I']] :=
  consolidating_rowwise wCsvFile wTsvFile wFixFile 1 0 rfl rfl rfl (by decide)
    ['A'] ['B'] ['C'] ['D'] ['E'] ['F'] ['G'] ['H'] ['I']
    (by decide) (by decide) (by decide)

/-- Claim C4: on well-formed delimited inputs the CSV extraction outputs exactly
the projection of each row onto columns 0,1,2,3 and the TSV extraction
exactly the projection onto columns 4,5,6, as headerless comma-separated
files, preserving row count and row order. -/
theorem extracting_projection (f g : TextFile) (i : Nat)
    (hf : i < f.length) (hg : i < g.length) (cf tf : List Line)
    (hc : (f.getD i []).splitOn ',' = cf) (_hc4 : 4 ≤ cf.length)
    (ht : (g.getD i []).splitOn '\t' = tf) (_ht7 : 7 ≤ tf.length) :
    (extracting_csv f).length = f.length ∧ (extracting_tsv g).length = g.length ∧
    (extracting_csv f).getD i [] =
      List.intercalate [','] [cf.getD 0 [], cf.getD 1 [], cf.getD 2 [], cf.getD 3 []] ∧
    (extracting_tsv g).getD i [] =
      List.intercalate [','] [tf.getD 4 [], tf.getD 5 [], tf.getD 6 []] := by
  refine ⟨by simp [extracting_csv, writeCsv, readCsv], by simp [extracting_tsv, writeCsv, readTsv],
    ?_, ?_⟩
  · unfold extracting_csv writeCsv
    rw [getD_map_of_lt _ _ i [] [] (by simp [readCsv]; exact hf)]
    rw [getD_map_of_lt _ _ i [] [] (by simp [readCsv]; exact hf)]
    rw [readCsv_getD f i hf, hc]
    rfl
  · unfold extracting_tsv writeCsv
    rw [getD_map_of_lt _ _ i [] [] (by simp [readTsv]; exact hg)]
    rw [getD_map_of_lt _ _ i [] [] (by simp [readTsv]; exact hg)]
    rw [show (readTsv g).getD i [] = (g.getD i []).splitOn '\t' from
      getD_map_of_lt _ g i [] [] hg, ht]
    rfl

/-- Witness for C4 at a five-column CSV row and a seven-column TSV row. -/
theorem extracting_projection_witness :
    (extracting_csv wVehicleFile).length = wVehicleFile.length ∧
    (extracting_tsv wTollplazaFile).length = wTollplazaFile.length ∧
    (extracting_csv wVehicleFile).getD 0 [] =
      List.intercalate [','] [['a'], ['b'], ['c'], ['d']] ∧
    (extracting_tsv wTollplazaFile).getD 0 [] =
      List.intercalate [','] [['y'], ['z'], ['q']] :=
  extracting_projection wVehicleFile wTollplazaFile 0 (by decide) (by decide)
    [['a'], ['b'], ['c'], ['d'], ['e']] [['u'], ['v'], ['w'], ['x'], ['y'], ['z'], ['q']]
    (by decide) (by decide) (by decide) (by decide)

/-- Claim C2: the transformation uppercases only column 3 and leaves every other
field of every row unchanged; a column-3 field `abc` becomes `ABC`. -/
theorem transforming_only_column3 (f : TextFile) (i : Nat) (hi : i < f.length)
    (r : List Line) (hr : (f.getD i []).splitOn ',' = r) (h4 : 4 ≤ r.length) :
    (transforming f).getD i [] =
      List.intercalate [','] (r.set 3 (upperField (r.getD 3 []))) ∧
    (∀ j, j ≠ 3 → (r.set 3 (upperField (r.getD 3 []))).getD j [] = r.getD j []) ∧
    (r.getD 3 [] = ['a', 'b', 'c'] →
      (r.set 3 (upperField (r.getD 3 []))).getD 3 [] = ['A', 'B', 'C']) := by
  refine ⟨?_, ?_, ?_⟩
  · unfold transforming writeCsv
    rw [getD_map_of_lt _ _ i [] [] (by simp [readCsv]; exact hi)]
    rw [getD_map_of_lt _ _ i [] [] (by simp [readCsv]; exact hi)]
    rw [readCsv_getD f i hi, hr]
    rfl
  · intro j hj
    exact getD_set_of_ne r 3 j _ [] (fun he => hj he.symm)
  · intro h3
    rw [getD_set_of_lt r 3 _ [] (by omega), h3]
    decide

/-- Witness for C2 at a row whose column 3 is `abc`: the serialized output
row, an untouched column, and the uppercased column. -/
theorem transforming_only_column3_witness :
    (transforming wExtractedFile).getD 0 [] =
      List.intercalate [',']
        ([['A'], ['B'], ['C'], ['a', 'b', 'c'], ['E']].set 3
          (upperField ([['A'], ['B'], ['C'], ['a', 'b', 'c'], ['E']].getD 3 []))) ∧
    ([['A'], ['B'], ['C'], ['a', 'b', 'c'], ['E']].set 3
        (upperField ([['A'], ['B'], ['C'], ['a', 'b', 'c'], ['E']].getD 3 []))).getD 0 [] =
      [['A'], ['B'], ['C'], ['a', 'b', 'c'], ['E']].getD 0 [] ∧
    ([['A'], ['B'], ['C'], ['a', 'b', 'c'], ['E']].set 3
        (upperField ([['A'], ['B'], ['C'], ['a', 'b', 'c'], ['E']].getD 3 []))).getD 3 [] =
      ['A', 'B', 'C'] :=
  ⟨(transforming_only_column3 wExtractedFile 0 (by decide)
      [['A'], ['B'], ['C'], ['a', 'b', 'c'], ['E']] (by decide) (by decide)).1,
   (transforming_only_column3 wExtractedFile 0 (by decide)
      [['A'], ['B'], ['C'], ['a', 'b', 'c'], ['E']] (by decide) (by decide)).2.1 0 (by decide),
   (transforming_only_column3 wExtractedFile 0 (by decide)
      [['A'], ['B'], ['C'], ['a', 'b', 'c'], ['E']] (by decide) (by decide)).2.2 (by decide)⟩

theorem char_toNat_ofNat (n : Nat) (h : n < 55296) : (Char.ofNat n).toNat = n := by
  have hv : n.isValidChar := Or.inl h
  rw [Char.ofNat, dif_pos hv]
  rfl

theorem upperChar_idem (c : Char) : upperChar (upperChar c) = upperChar c := by
  unfold upperChar
  by_cases h : 97 ≤ c.toNat ∧ c.toNat ≤ 122
  · rw [if_pos h]
    have ht : (Char.ofNat (c.toNat - 32)).toNat = c.toNat - 32 :=
      char_toNat_ofNat _ (by omega)
    rw [if_neg (by rw [ht]; omega)]
  · rw [if_neg h, if_neg h]

theorem upperChar_ne_comma (c : Char) (h : c ≠ ',') : upperChar c ≠ ',' := by
  unfold upperChar
  by_cases hc : 97 ≤ c.toNat ∧ c.toNat ≤ 122
  · rw [if_pos hc]
    intro he
    have h2 := congrArg Char.toNat he
    rw [char_toNat_ofNat _ (by omega)] at h2
    rw [show Char.toNat ',' = 44 from rfl] at h2
    omega
  · rw [if_neg hc]
    exact h

theorem upperField_idem (l : Line) : upperField (upperField l) = upperField l := by
  unfold upperField
  rw [List.map_map]
  apply List.map_congr_left
  intro c _
  exact upperChar_idem c

theorem upperField_comma_free (l : Line) (h : ',' ∉ l) : ',' ∉ upperField l := by
  unfold upperField
  intro hm
  rcases List.mem_map.mp hm with ⟨c, hc, he⟩
  exact upperChar_ne_comma c (fun hcc => h (hcc ▸ hc)) he

theorem splitOnP_pieces {α : Type} (q : α → Bool) (xs : List α) :
    ∀ p ∈ xs.splitOnP q, ∀ x ∈ p, q x = false := by
  induction xs with
  | nil =>
    intro p hp x hx
    rw [List.splitOnP_nil] at hp
    simp only [List.mem_singleton] at hp
    subst hp
    simp at hx
  | cons a xs ih =>
    intro p hp x hx
    rw [List.splitOnP_cons] at hp
    by_cases ha : q a
    · rw [if_pos ha] at hp
      rcases List.mem_cons.mp hp with h1 | h1
      · subst h1; simp at hx
      · exact ih p h1 x hx
    · rw [if_neg ha] at hp
      cases hsp : xs.splitOnP q with
      | nil => exact absurd hsp (List.splitOnP_ne_nil q xs)
      | cons hd tl =>
        rw [hsp, List.modifyHead_cons] at hp
        rcases List.mem_cons.mp hp with h1 | h1
        · subst h1
          rcases List.mem_cons.mp hx with h2 | h2
          · subst h2; simpa using ha
          · exact ih hd (by rw [hsp]; exact List.mem_cons_self hd tl) x h2
        · exact ih p (by rw [hsp]; exact List.mem_cons_of_mem hd h1) x hx

theorem splitOn_comma_free (l p : Line) (hp : p ∈ l.splitOn ',') : ',' ∉ p := by
  intro hm
  have h := splitOnP_pieces (fun c => c == ',') l p (by simpa [List.splitOn] using hp) ',' hm
  simp at h

theorem splitOn_length_pos (l : Line) : 0 < (l.splitOn ',').length := by
  rcases List.length_pos.mpr (List.splitOnP_ne_nil (fun c => c == ',') l) with h
  simpa [List.splitOn] using h

theorem readCsv_writeCsv (t : Table)
    (h : ∀ r ∈ t, r ≠ [] ∧ ∀ p ∈ r, ',' ∉ p) : readCsv (writeCsv t) = t := by
  unfold readCsv writeCsv
  rw [List.map_map]
  conv_rhs => rw [show t = t.map id from (List.map_id t).symm]
  apply List.map_congr_left
  intro r hr
  show (List.intercalate [','] r).splitOn ',' = id r
  exact List.splitOn_intercalate r ',' (h r hr).2 (h r hr).1

theorem transformRow_idem (r : List Line) : transformRow (transformRow r) = transformRow r := by
  unfold transformRow
  by_cases h : 3 < r.length
  · rw [getD_set_of_lt r 3 _ [] h, upperField_idem, List.set_set]
  · simp [List.set_eq_of_length_le (by omega : r.length ≤ 3)]

/-- Claim C6: the transformation step is idempotent — applying it twice to any
input file produces the same output file as applying it once. -/
theorem transforming_idem (f : TextFile) :
    transforming (transforming f) = transforming f := by
  unfold transforming
  rw [readCsv_writeCsv ((readCsv f).map transformRow) ?cond]
  · rw [List.map_map]
    congr 1
    apply List.map_congr_left
    intro r _
    show transformRow (transformRow r) = transformRow r
    exact transformRow_idem r
  case cond =>
    intro r hr
    rcases List.mem_map.mp hr with ⟨r0, hr0, he⟩
    rcases List.mem_map.mp hr0 with ⟨line, _, he0⟩
    constructor
    · intro hnil
      have hpos := splitOn_length_pos line
      rw [he0] at hpos
      have hlen : r.length = 0 := by rw [hnil]; rfl
      rw [← he, transformRow, List.length_set] at hlen
      omega
    · intro p hp
      rw [← he, transformRow] at hp
      rcases List.mem_or_eq_of_mem_set hp with h1 | h1
      · exact splitOn_comma_free line p (he0 ▸ h1)
      · subst h1
        by_cases h3 : 3 < r0.length
        · exact upperField_comma_free _ (splitOn_comma_free line _ (he0 ▸ getD_mem r0 3 [] h3))
        · rw [getD_of_le r0 3 [] (by omega)]
          simp [upperField]

theorem filter_range_interval (a b n : Nat) :
    (List.range n).filter (fun i => decide (a ≤ i) && decide (i < b)) =
      List.range' a (min b n - a) := by
  induction n with
  | zero => simp
  | succ n ih =>
    rw [List.range_succ, List.filter_append, ih]
    by_cases h : a ≤ n ∧ n < b
    · have hf : List.filter (fun i => decide (a ≤ i) && decide (i < b)) [n] = [n] := by
        simp [h.1, h.2]
      rw [hf]
      have h1 : min b n = n := by omega
      have h2 : min b (n + 1) = n + 1 := by omega
      rw [h1, h2, show n + 1 - a = (n - a) + 1 by omega, List.range'_1_concat]
      congr 2
      omega
    · have hf : List.filter (fun i => decide (a ≤ i) && decide (i < b)) [n] = [] := by
        simp only [List.filter_cons, List.filter_nil, Bool.and_eq_true, decide_eq_true_eq]
        rw [if_neg]
        intro hc
        exact h hc
      rw [hf, List.append_nil]
      congr 1
      omega

theorem map_getD_range' {α : Type} (l : List α) (d : α) (m : Nat) :
    ∀ a, a + m ≤ l.length →
      (List.range' a m).map (fun i => l.getD i d) = (l.drop a).take m := by
  induction m with
  | zero => intro a _; simp
  | succ m ih =>
    intro a h
    have ha : a < l.length := by omega
    rw [List.range'_succ, List.map_cons, List.drop_eq_getElem_cons ha, List.take_succ_cons]
    congr 1
    · rw [List.getD_eq_getElem?_getD, List.getElem?_eq_getElem ha]
      rfl
    · exact ih (a + 1) (by omega)

theorem cutSelect_59_67 (l : Line) :
    cutSelect [(59, 62), (63, 67)] l = (l.drop 58).take 9 := by
  unfold cutSelect
  rw [List.filter_congr (q := fun i => decide (58 ≤ i) && decide (i < 67)) ?peq]
  case peq =>
    intro i _
    rw [Bool.eq_iff_iff]
    simp only [List.any_cons, List.any_nil, Bool.or_false, Bool.or_eq_true, Bool.and_eq_true,
      decide_eq_true_eq]
    omega
  rw [filter_range_interval 58 67 l.length]
  by_cases hl : 58 ≤ l.length
  · rw [map_getD_range' l ' ' (min 67 l.length - 58) 58 (by omega)]
    by_cases h67 : 67 ≤ l.length
    · rw [show min 67 l.length - 58 = 9 by omega]
    · rw [show min 67 l.length - 58 = l.length - 58 by omega]
      rw [List.take_of_length_le (by simp), List.take_of_length_le (by simp; omega)]
  · rw [show min 67 l.length - 58 = 0 by omega]
    rw [List.drop_eq_nil_of_le (by omega)]
    simp

/-- Claim C5, amended: for every line, the fixed-width extraction outputs the
characters at positions 59-67 of that line with every space replaced by a
comma; no comma is inserted between the 59-62 and the 63-67 range, so the
output is the two fields comma-separated only when a space separates them. -/
theorem extract_txt_chars (f : TextFile) (i : Nat) :
    (extract_txt f).getD i [] = trSpaceComma (((f.getD i []).drop 58).take 9) := by
  by_cases h : i < f.length
  · unfold extract_txt
    rw [getD_map_of_lt _ _ i [] [] h, cutSelect_59_67]
  · rw [getD_of_le _ i [] (by simpa [extract_txt] using (by omega : f.length ≤ i))]
    rw [getD_of_le f i [] (by omega)]
    simp [trSpaceComma]

/-- Claim C5 counterexample: on a line whose characters 59-67 contain no space the
step emits those nine characters as a single field, not the two
comma-separated fields at positions 59-62 and 63-67. -/
theorem extract_txt_not_two_fields :
    (extract_txt [c5Line]).getD 0 [] = "ABCDEFGHI".toList ∧
    ((extract_txt [c5Line]).getD 0 []).splitOn ',' ≠
      [(c5Line.drop 58).take 4, (c5Line.drop 62).take 5] := by
  constructor
  · decide
  · decide

/-- Claim C7 counterexample: the dependency chain declared on line 94 consists of
seven tasks, not six. -/
theorem pipelineChain_not_six_steps : ¬ pipelineChain.length = 6 := by decide

/-- Claim C7, amended: the pipeline consists of seven distinct tasks in a strict
linear dependency chain, and in every valid execution no task starts
before every earlier task of the chain has finished. -/
theorem pipeline_strict_linear_order (s f : Task → Nat) (h : validExec s f) :
    pipelineChain.length = 7 ∧ pipelineChain.Nodup ∧ (∀ t : Task, t ∈ pipelineChain) ∧
    (∀ i, i + 1 < pipelineChain.length →
      f (pipelineChain.getD i Task.download) ≤ s (pipelineChain.getD (i + 1) Task.download)) ∧
    (∀ i j, i < j → j < pipelineChain.length →
      f (pipelineChain.getD i Task.download) ≤ s (pipelineChain.getD j Task.download)) := by
  have a0 : s Task.download ≤ f Task.download := h.1 _ (by decide)
  have a1 : s Task.unzip ≤ f Task.unzip := h.1 _ (by decide)
  have a2 : s Task.extract_csv ≤ f Task.extract_csv := h.1 _ (by decide)
  have a3 : s Task.extract_tsv ≤ f Task.extract_tsv := h.1 _ (by decide)
  have a4 : s Task.extract_txt ≤ f Task.extract_txt := h.1 _ (by decide)
  have a5 : s Task.consolidate ≤ f Task.consolidate := h.1 _ (by decide)
  have e0 : f Task.download ≤ s Task.unzip := h.2 (Task.download, Task.unzip) (by decide)
  have e1 : f Task.unzip ≤ s Task.extract_csv := h.2 (Task.unzip, Task.extract_csv) (by decide)
  have e2 : f Task.extract_csv ≤ s Task.extract_tsv :=
    h.2 (Task.extract_csv, Task.extract_tsv) (by decide)
  have e3 : f Task.extract_tsv ≤ s Task.extract_txt :=
    h.2 (Task.extract_tsv, Task.extract_txt) (by decide)
  have e4 : f Task.extract_txt ≤ s Task.consolidate :=
    h.2 (Task.extract_txt, Task.consolidate) (by decide)
  have e5 : f Task.consolidate ≤ s Task.transform :=
    h.2 (Task.consolidate, Task.transform) (by decide)
  refine ⟨by decide, by decide, by intro t; cases t <;> decide, ?_, ?_⟩
  · intro i hi
    simp only [pipelineChain, List.length_cons, List.length_nil] at hi
    have hi2 : i ≤ 5 := by omega
    interval_cases i
    · exact e0
    · exact e1
    · exact e2
    · exact e3
    · exact e4
    · exact e5
  · intro i j hij hj
    simp only [pipelineChain, List.length_cons, List.length_nil] at hj
    interval_cases j <;> interval_cases i <;>
      simp only [pipelineChain, List.getD_cons_zero, List.getD_cons_succ] <;> omega

/-- Witness for C7 at a concrete sequential schedule. -/
theorem pipeline_strict_linear_order_witness :
    pipelineChain.length = 7 ∧ pipelineChain.Nodup :=
  ⟨(pipeline_strict_linear_order wStart wFinish ⟨by decide, by decide⟩).1,
   (pipeline_strict_linear_order wStart wFinish ⟨by decide, by decide⟩).2.1⟩

/-- Claim C9: a step that succeeds leaves every file other than its own single
output unchanged: it neither mutates another stage artifact nor deletes
any file. -/
theorem steps_frame (fs g : FS) :
    (extracting_csvE fs = Except.ok g → ∀ m, m ≠ csvData → g m = fs m) ∧
    (extracting_tsvE fs = Except.ok g → ∀ m, m ≠ tsvData → g m = fs m) ∧
    (extract_txtE fs = Except.ok g → ∀ m, m ≠ fixedWidthData → g m = fs m) ∧
    (consolidatingE fs = Except.ok g → ∀ m, m ≠ extractedData → g m = fs m) ∧
    (transformingE fs = Except.ok g → ∀ m, m ≠ transformedData → g m = fs m) := by
  refine ⟨?_, ?_, ?_, ?_, ?_⟩
  · intro h m hm
    cases hf : fs vehicleData with
    | none => simp [extracting_csvE, hf] at h
    | some f0 =>
      cases hr : readCsvE f0 with
      | error e => simp [extracting_csvE, hf, hr] at h
      | ok t =>
        simp [extracting_csvE, hf, hr] at h
        rw [← h]
        simp [fsWrite, hm]
  · intro h m hm
    cases hf : fs tollplazaData with
    | none => simp [extracting_tsvE, hf] at h
    | some f0 =>
      cases hr : readTsvE f0 with
      | error e => simp [extracting_tsvE, hf, hr] at h
      | ok t =>
        simp [extracting_tsvE, hf, hr] at h
        rw [← h]
        simp [fsWrite, hm]
  · intro h m hm
    cases hf : fs paymentData with
    | none =>
      simp [extract_txtE, hf] at h
      rw [← h]
      simp [fsWrite, hm]
    | some f0 =>
      simp [extract_txtE, hf] at h
      rw [← h]
      simp [fsWrite, hm]
  · intro h m hm
    cases h1 : fs csvData with
    | none => simp [consolidatingE, h1] at h
    | some f1 =>
      cases h2 : fs tsvData with
      | none => simp [consolidatingE, h1, h2] at h
      | some f2 =>
        cases h3 : fs fixedWidthData with
        | none => simp [consolidatingE, h1, h2, h3] at h
        | some f3 =>
          cases hr1 : readCsvE f1 with
          | error e => simp [consolidatingE, h1, h2, h3, hr1] at h
          | ok t1 =>
            cases hr2 : readCsvE f2 with
            | error e => simp [consolidatingE, h1, h2, h3, hr1, hr2] at h
            | ok t2 =>
              cases hr3 : readCsvE f3 with
              | error e => simp [consolidatingE, h1, h2, h3, hr1, hr2, hr3] at h
              | ok t3 =>
                simp [consolidatingE, h1, h2, h3, hr1, hr2, hr3] at h
                rw [← h]
                simp [fsWrite, hm]
  · intro h m hm
    cases hf : fs extractedData with
    | none => simp [transformingE, hf] at h
    | some f0 =>
      cases hr : readCsvE f0 with
      | error e => simp [transformingE, hf, hr] at h
      | ok t =>
        simp [transformingE, hf, hr] at h
        rw [← h]
        simp [fsWrite, hm]

/-- Witness for C9: each step run on a full directory leaves another file
of the directory unchanged. -/
theorem steps_frame_witness :
    fsWrite fsAll csvData (extracting_csv wAny) tollplazaData = fsAll tollplazaData ∧
    fsWrite fsAll tsvData (extracting_tsv wAny) vehicleData = fsAll vehicleData ∧
    fsWrite fsAll fixedWidthData (extract_txt wAny) vehicleData = fsAll vehicleData ∧
    fsWrite fsAll extractedData (consolidating wAny wAny wAny) vehicleData = fsAll vehicleData ∧
    fsWrite fsAll transformedData (transforming wAny) vehicleData = fsAll vehicleData :=
  ⟨(steps_frame fsAll _).1 rfl tollplazaData (by decide),
   (steps_frame fsAll _).2.1 rfl vehicleData (by decide),
   (steps_frame fsAll _).2.2.1 rfl vehicleData (by decide),
   (steps_frame fsAll _).2.2.2.1 rfl vehicleData (by decide),
   (steps_frame fsAll _).2.2.2.2 rfl vehicleData (by decide)⟩

end ETL
